import Mathlib

/-!
Shallow embedding of the property-to-script compilation core of the
`ploteria` plotting library: the candlestick and filled-curve property
builders (`src/candlestick.rs`, `src/filledcurve.rs`) and the key (legend)
property builder (`src/key.rs`), together with the plotting operations that
zip coordinate sequences into row-oriented data tables.

Rust `f64` configuration values (line widths, opacities, scale factors,
coordinates) are modelled as exact rationals `ℚ`; a setter guarded by an
`assert!` is modelled as an `Option`-returning function (`none` = the
assertion fires and the setter aborts).  Rust `String`/`Cow<str>` values are
Lean `String`s, `push_str`/`push` are string appends, and `format!`
interpolation is explicit concatenation around a numeric rendering function.
-/

namespace Ploteria

/-- Rendering of a numeric scalar into a script directive, modelling Rust's
`format!("{}", x)` on `f64` over the exact-rational model of `f64` values:
an integral value prints with no fractional part, matching Rust's `Display`
for `f64` on integral values (the decimal rendering of non-integral values
is abstracted to the rational's canonical `num/den` form). -/
def fmtF64 (x : ℚ) : String :=
  if x.den = 1 then toString x.num else toString x.num ++ "/" ++ toString x.den

/-- The axis-pair selector: which of the figure's (up to four) axes an
element's X and Y values are measured against. -/
inductive Axes
| bottomXLeftY
| bottomXRightY
| topXLeftY
| topXRightY

deriving instance DecidableEq for Axes

/-- Modelled from the spec: the canonical textual rendering of an axis-pair
selector (an "enumerated value type … exposing a canonical textual
rendering", §6); the `Display` impl is not under `src/`. -/
def Axes.display : Axes → String
| .bottomXLeftY => "x1y1"
| .bottomXRightY => "x1y2"
| .topXLeftY => "x2y1"
| .topXRightY => "x2y2"

/-- The line-type enumeration consumed by the candlestick serializer; the
variant set mirrors a gnuplot-style dash-type palette with `Solid` as the
default used by `Properties::default`. -/
inductive LineType
| solid
| dash
| dot
| dotDash
| dotDotDash
| smallDot

deriving instance DecidableEq for LineType

/-- Modelled from the spec: the canonical textual rendering of a line type
(an opaque enumerated value type, §1/§6); the `Display` impl is not under
`src/`. -/
def LineType.display : LineType → String
| .solid => "1"
| .dash => "2"
| .dot => "3"
| .dotDash => "4"
| .dotDotDash => "5"
| .smallDot => "0"

/-- Modelled from the spec: a color is an opaque value type exposing a
canonical textual rendering (the `<colorspec>` of the `lc rgb '<colorspec>'`
directive, §1/§6); its enumeration lives outside `src/`, so it is modelled
by its rendered colorspec. -/
structure Color where
  colorspec : String

deriving instance DecidableEq for Color

/-- Canonical textual rendering of a color (see `Color`). -/
def Color.display (c : Color) : String := c.colorspec

/-- One plot element owned by a figure: the generated row-oriented data
table (rows of scaled coordinates) plus the serialized properties fragment
attached to it (`Plot::new(data, &props)`). -/
structure PlotElem where
  data : List (List ℚ)
  fragment : String

deriving instance DecidableEq for PlotElem

/-- Modelled from the spec: the figure owns an axis registry and an ordered
list of plot elements (§3).  The registry is abstracted to its observable
behaviour, the per-axis-pair scale-factor assignment consumed by
`scale_factor` (§6: "a figure-wide axis-scale-factor resolver keyed by an
axis-pair selector"). -/
structure Figure where
  axes : Axes → ℚ × ℚ
  plots : List PlotElem

/-- Modelled from the spec: the figure-wide axis-scale-factor resolver,
keyed by an axis-pair selector (§6); returns the `(x_factor, y_factor)`
pair for the requested axis pair. -/
def scale_factor (registry : Axes → ℚ × ℚ) (axes : Axes) : ℚ × ℚ :=
  registry axes

/-- Row-wise zip of three coordinate sequences, modelling `izip!(x, y1, y2)`:
stops at the shortest sequence. -/
def izip3 : List ℚ → List ℚ → List ℚ → List (List ℚ)
| a :: as_, b :: bs, c :: cs => [a, b, c] :: izip3 as_ bs cs
| _, _, _ => []

/-- Row-wise zip of five coordinate sequences, modelling
`izip!(x, box_min, whisker_min, whisker_high, box_high)`: stops at the
shortest sequence. -/
def izip5 : List ℚ → List ℚ → List ℚ → List ℚ → List ℚ → List (List ℚ)
| a :: as_, b :: bs, c :: cs, d :: ds, e :: es =>
    [a, b, c, d, e] :: izip5 as_ bs cs ds es
| _, _, _, _, _ => []

/-- Modelled from the spec: the row-oriented table constructor
(`Matrix::new`), which "accepts an iterable of tuples plus one per-column
scale factor" (§6) and multiplies each column by its scale factor (§ GLOSSARY
"Scale factor: a per-axis numeric multiplier applied to raw coordinate
values before they are written into a data table"). -/
def Matrix.new (rows : List (List ℚ)) (factors : List ℚ) : List (List ℚ) :=
  rows.map (fun r => r.zipWith (· * ·) factors)

/-- A string `s` contains the substring `pat`. -/
def strContains (s pat : String) : Prop :=
  ∃ a b, s = a ++ pat ++ b

namespace candlestick

/-- Properties common to candlestick plots (`candlestick.rs`). -/
structure Properties where
  color : Option Color
  label : Option String
  line_type : LineType
  linewidth : Option ℚ

deriving instance DecidableEq for Properties

/-- `Default for Properties` (`candlestick.rs`). -/
def Properties.default : Properties :=
  { color := none, label := none, line_type := LineType.solid, linewidth := none }

/-- `Properties::color` setter. -/
def Properties.setColor (c : Color) (p : Properties) : Properties :=
  { p with color := some c }

/-- `Properties::label` setter. -/
def Properties.setLabel (l : String) (p : Properties) : Properties :=
  { p with label := some l }

/-- `Properties::line_type` setter. -/
def Properties.setLineType (lt : LineType) (p : Properties) : Properties :=
  { p with line_type := lt }

/-- `Properties::line_width` setter: `assert!(lw > 0.)` then store.  The
assertion is modelled by `Option`: `none` means the setter panics. -/
def Properties.line_width (lw : ℚ) (p : Properties) : Option Properties :=
  if 0 < lw then some { p with linewidth := some lw } else none

/-- `Script for Properties` (`candlestick.rs`): the sequence of `push_str`
calls building the fragment. -/
def Properties.script (p : Properties) : String :=
  let s := "with candlesticks "
  let s := s ++ ("lt " ++ p.line_type.display ++ " ")
  let s := match p.linewidth with
    | some lw => s ++ ("lw " ++ fmtF64 lw ++ " ")
    | none => s
  let s := match p.color with
    | some c => s ++ ("lc rgb '" ++ c.display ++ "' ")
    | none => s
  let s := match p.label with
    | some l => s ++ "title '" ++ l ++ "'"
    | none => s ++ "notitle"
  s

/-- The `Candlesticks` input struct, in its field order:
x, whisker_min, box_min, box_high, whisker_high. -/
structure Candlesticks where
  x : List ℚ
  whisker_min : List ℚ
  box_min : List ℚ
  box_high : List ℚ
  whisker_high : List ℚ

/-- `Plot<Candlesticks> for Figure` (`candlestick.rs`): resolve the
`BottomXLeftY` scale factors unconditionally, zip the five sequences in the
order `(x, box_min, whisker_min, whisker_high, box_high)` with per-column
factors `(x, y, y, y, y)`, and push the new plot element built from the
configured default properties. -/
def plot (fig : Figure) (cs : Candlesticks)
    (configure : Properties → Properties) : Figure :=
  let p := scale_factor fig.axes Axes.bottomXLeftY
  let data := Matrix.new
    (izip5 cs.x cs.box_min cs.whisker_min cs.whisker_high cs.box_high)
    [p.1, p.2, p.2, p.2, p.2]
  { fig with plots := fig.plots ++ [⟨data, (configure Properties.default).script⟩] }

end candlestick

namespace filledcurve

/-- Properties common to filled curve plots (`filledcurve.rs`). -/
structure Properties where
  axes : Option Axes
  color : Option Color
  label : Option String
  opacity : Option ℚ

deriving instance DecidableEq for Properties

/-- `Default for Properties` (`filledcurve.rs`). -/
def Properties.default : Properties :=
  { axes := none, color := none, label := none, opacity := none }

/-- `Properties::axes` setter. -/
def Properties.setAxes (a : Axes) (p : Properties) : Properties :=
  { p with axes := some a }

/-- `Properties::color` setter. -/
def Properties.setColor (c : Color) (p : Properties) : Properties :=
  { p with color := some c }

/-- `Properties::label` setter. -/
def Properties.setLabel (l : String) (p : Properties) : Properties :=
  { p with label := some l }

/-- `Properties::opacity` setter, exactly as the source has it: the body
stores the value unconditionally — there is no assertion in the code (its
doc comment announces "Panics if `opacity` is outside the range `[0, 1]`",
but no check is performed), so the setter is a total function. -/
def Properties.setOpacity (o : ℚ) (p : Properties) : Properties :=
  { p with opacity := some o }

/-- `Script for Properties` (`filledcurve.rs`): the sequence of `push_str`
calls building the fragment. -/
def Properties.script (p : Properties) : String :=
  let s := match p.axes with
    | some a => "axes " ++ a.display ++ " "
    | none => ""
  let s := s ++ "with filledcurves "
  let s := s ++ "fillstyle "
  let s := match p.opacity with
    | some o => s ++ ("solid " ++ fmtF64 o ++ " ")
    | none => s
  let s := s ++ "noborder "
  let s := match p.color with
    | some c => s ++ ("lc rgb '" ++ c.display ++ "' ")
    | none => s
  let s := match p.label with
    | some l => s ++ "title '" ++ l ++ "'"
    | none => s ++ "notitle"
  s

/-- The `FilledCurve` input struct: x, y1, y2. -/
structure FilledCurve where
  x : List ℚ
  y1 : List ℚ
  y2 : List ℚ

/-- `Plot<FilledCurve> for Figure` (`filledcurve.rs`): first run the
configuration callback on the default properties, then resolve the scale
factors for `props.axes.unwrap_or(BottomXLeftY)`, zip `(x, y1, y2)` with
per-column factors `(x, y, y)`, and push the new plot element. -/
def plot (fig : Figure) (fc : FilledCurve)
    (configure : Properties → Properties) : Figure :=
  let props := configure Properties.default
  let p := scale_factor fig.axes (props.axes.getD Axes.bottomXLeftY)
  let data := Matrix.new (izip3 fc.x fc.y1 fc.y2) [p.1, p.2, p.2]
  { fig with plots := fig.plots ++ [⟨data, props.script⟩] }

end filledcurve

namespace key

/-- Horizontal position of the key (`key.rs`). -/
inductive Horizontal
| center
| left
| right

deriving instance DecidableEq for Horizontal

/-- Text justification of the key (`key.rs`). -/
inductive Justification
| left
| right

deriving instance DecidableEq for Justification

/-- Order of the elements of the key (`key.rs`). -/
inductive Order
| sampleText
| textSample

deriving instance DecidableEq for Order

/-- Vertical position of the key (`key.rs`). -/
inductive Vertical
| bottom
| center
| top

deriving instance DecidableEq for Vertical

/-- Position of the key (`key.rs`): inside or outside the axes area. -/
inductive Position
| inside (v : Vertical) (h : Horizontal)
| outside (v : Vertical) (h : Horizontal)

deriving instance DecidableEq for Position

/-- How the entries of the key are stacked (`key.rs`). -/
inductive Stacked
| horizontally
| vertically

deriving instance DecidableEq for Stacked

/-- Modelled from the spec: canonical textual rendering of a horizontal
position (§6: enumerated value types "each exposing a canonical textual
rendering"); the `Display` impls are not under `src/`. -/
def Horizontal.display : Horizontal → String
| .center => "center"
| .left => "left"
| .right => "right"

/-- Modelled from the spec: canonical textual rendering of a vertical
position (see `Horizontal.display`). -/
def Vertical.display : Vertical → String
| .bottom => "bottom"
| .center => "center"
| .top => "top"

/-- Modelled from the spec: canonical textual rendering of a justification
(see `Horizontal.display`). -/
def Justification.display : Justification → String
| .left => "Left"
| .right => "Right"

/-- Modelled from the spec: canonical textual rendering of a key entry
order (see `Horizontal.display`). -/
def Order.display : Order → String
| .sampleText => "noreverse"
| .textSample => "reverse"

/-- Modelled from the spec: canonical textual rendering of a stacking mode
(see `Horizontal.display`). -/
def Stacked.display : Stacked → String
| .horizontally => "horizontal"
| .vertically => "vertical"

/-- Properties of the key (`key.rs`). -/
structure KeyProperties where
  boxed : Bool
  hidden : Bool
  justification : Option Justification
  order : Option Order
  position : Option Position
  stacked : Option Stacked
  title : Option String

deriving instance DecidableEq for KeyProperties

/-- `Default for KeyProperties` (`key.rs`). -/
def KeyProperties.default : KeyProperties :=
  { boxed := false, hidden := false, justification := none, order := none,
    position := none, stacked := none, title := none }

/-- `KeyProperties::hide`. -/
def KeyProperties.hide (k : KeyProperties) : KeyProperties :=
  { k with hidden := true }

/-- `KeyProperties::show`. -/
def KeyProperties.show (k : KeyProperties) : KeyProperties :=
  { k with hidden := false }

/-- `KeyProperties::boxed` setter. -/
def KeyProperties.setBoxed (b : Bool) (k : KeyProperties) : KeyProperties :=
  { k with boxed := b }

/-- `KeyProperties::justification` setter. -/
def KeyProperties.setJustification (j : Justification) (k : KeyProperties) :
    KeyProperties :=
  { k with justification := some j }

/-- `KeyProperties::order` setter. -/
def KeyProperties.setOrder (o : Order) (k : KeyProperties) : KeyProperties :=
  { k with order := some o }

/-- `KeyProperties::position` setter. -/
def KeyProperties.setPosition (p : Position) (k : KeyProperties) :
    KeyProperties :=
  { k with position := some p }

/-- `KeyProperties::stacked` setter. -/
def KeyProperties.setStacked (s : Stacked) (k : KeyProperties) :
    KeyProperties :=
  { k with stacked := some s }

/-- `KeyProperties::title` setter. -/
def KeyProperties.setTitle (t : String) (k : KeyProperties) : KeyProperties :=
  { k with title := some t }

/-- `Script for KeyProperties` (`key.rs`): when hidden, return
`"set key off\n"` immediately; otherwise build the `set key on ` line from
the set fields, in source order, and terminate it with a newline. -/
def KeyProperties.script (k : KeyProperties) : String :=
  if k.hidden then "set key off\n"
  else
    let s := "set key on "
    let s := match k.position with
      | none => s
      | some (Position.inside v h) =>
          s ++ ("inside " ++ v.display ++ " " ++ h.display ++ " ")
      | some (Position.outside v h) =>
          s ++ ("outside " ++ v.display ++ " " ++ h.display ++ " ")
    let s := match k.stacked with
      | some st => (s ++ st.display) ++ " "
      | none => s
    let s := match k.justification with
      | some j => (s ++ j.display) ++ " "
      | none => s
    let s := match k.order with
      | some o => (s ++ o.display) ++ " "
      | none => s
    let s := match k.title with
      | some t => s ++ ("title '" ++ t ++ "' ")
      | none => s
    let s := if k.boxed then s ++ "box " else s
    s ++ "\n"

end key

/-! Helper lemmas about the zipping and scaling pipeline. -/

/-- Unfolding lemma: three-column zip on an empty first column. -/
theorem izip3_nil1 (b c : List ℚ) : izip3 [] b c = [] := by
  cases b <;> cases c <;> rfl

/-- Unfolding lemma: three-column zip of all-nonempty columns. -/
theorem izip3_cons (x y z : ℚ) (xs ys zs : List ℚ) :
    izip3 (x :: xs) (y :: ys) (z :: zs) = [x, y, z] :: izip3 xs ys zs := rfl

/-- Unfolding lemma: five-column zip on an empty first column. -/
theorem izip5_nil1 (b c d e : List ℚ) : izip5 [] b c d e = [] := by
  cases b <;> cases c <;> cases d <;> cases e <;> rfl

/-- Unfolding lemma: five-column zip of all-nonempty columns. -/
theorem izip5_cons (x y z w v : ℚ) (xs ys zs ws vs : List ℚ) :
    izip5 (x :: xs) (y :: ys) (z :: zs) (w :: ws) (v :: vs)
      = [x, y, z, w, v] :: izip5 xs ys zs ws vs := rfl

/-- Row count of the three-column zip: the shortest input length. -/
theorem izip3_length (a b c : List ℚ) :
    (izip3 a b c).length = min a.length (min b.length c.length) := by
  induction a generalizing b c with
  | nil => simp [izip3_nil1]
  | cons x xs ih =>
    cases b with
    | nil => simp [izip3]
    | cons y ys =>
      cases c with
      | nil => simp [izip3]
      | cons z zs => simp only [izip3_cons, List.length_cons, ih]; omega

/-- Row count of the five-column zip: the shortest input length. -/
theorem izip5_length (a b c d e : List ℚ) :
    (izip5 a b c d e).length
      = min a.length (min b.length (min c.length (min d.length e.length))) := by
  induction a generalizing b c d e with
  | nil => simp [izip5_nil1]
  | cons x xs ih =>
    cases b with
    | nil => simp [izip5]
    | cons y ys =>
      cases c with
      | nil => simp [izip5]
      | cons z zs =>
        cases d with
        | nil => simp [izip5]
        | cons w ws =>
          cases e with
          | nil => simp [izip5]
          | cons v vs => simp only [izip5_cons, List.length_cons, ih]; omega

/-- Scaling a three-column zipped table column-wise is the zip of the
column-wise scaled inputs. -/
theorem Matrix.new_izip3 (f1 f2 f3 : ℚ) (a b c : List ℚ) :
    Matrix.new (izip3 a b c) [f1, f2, f3]
      = izip3 (a.map (· * f1)) (b.map (· * f2)) (c.map (· * f3)) := by
  induction a generalizing b c with
  | nil => simp [izip3_nil1, Matrix.new]
  | cons x xs ih =>
    cases b with
    | nil => simp [izip3, Matrix.new]
    | cons y ys =>
      cases c with
      | nil => simp [izip3, Matrix.new]
      | cons z zs =>
        simp only [izip3_cons, Matrix.new, List.map_cons, List.zipWith] at ih ⊢
        rw [ih]

/-- Scaling a five-column zipped table column-wise is the zip of the
column-wise scaled inputs. -/
theorem Matrix.new_izip5 (f1 f2 f3 f4 f5 : ℚ) (a b c d e : List ℚ) :
    Matrix.new (izip5 a b c d e) [f1, f2, f3, f4, f5]
      = izip5 (a.map (· * f1)) (b.map (· * f2)) (c.map (· * f3))
          (d.map (· * f4)) (e.map (· * f5)) := by
  induction a generalizing b c d e with
  | nil => simp [izip5_nil1, Matrix.new]
  | cons x xs ih =>
    cases b with
    | nil => simp [izip5, Matrix.new]
    | cons y ys =>
      cases c with
      | nil => simp [izip5, Matrix.new]
      | cons z zs =>
        cases d with
        | nil => simp [izip5, Matrix.new]
        | cons w ws =>
          cases e with
          | nil => simp [izip5, Matrix.new]
          | cons v vs =>
            simp only [izip5_cons, Matrix.new, List.map_cons, List.zipWith] at ih ⊢
            rw [ih]

/-! Claim theorems. -/

/-- Claim C1.  The claim states that the filled-curve `Properties::opacity`
setter aborts for opacities outside `[0, 1]`.  The source contradicts its
own `# Panics` documentation: the setter body performs no check at all, so
at the out-of-range opacity `2` it succeeds, stores the value, and the
serialized fragment contains `solid 2`. -/
theorem C1_opacity_unchecked :
    (filledcurve.Properties.setOpacity 2 filledcurve.Properties.default).opacity = some 2
    ∧ strContains
        (filledcurve.Properties.setOpacity 2 filledcurve.Properties.default).script
        ("solid " ++ fmtF64 2 ++ " ")
    ∧ (filledcurve.Properties.setOpacity 2 filledcurve.Properties.default).script
        = "with filledcurves fillstyle solid 2 noborder notitle" :=
  ⟨rfl, ⟨"with filledcurves fillstyle ", "noborder notitle", by decide⟩, by decide⟩

/-- Claim C2: for every line width `w > 0` the candlestick
`Properties::line_width` setter succeeds and the serialized fragment
contains the directive `lw <w>`; for every `w ≤ 0` the setter aborts
(the assertion fires, modelled by `none`). -/
theorem C2_line_width (w : ℚ) :
    (0 < w → ∃ q, candlestick.Properties.line_width w candlestick.Properties.default
        = some q ∧ strContains q.script ("lw " ++ fmtF64 w ++ " "))
    ∧ (w ≤ 0 → candlestick.Properties.line_width w candlestick.Properties.default
        = none) := by
  constructor
  · intro h
    refine ⟨{ candlestick.Properties.default with linewidth := some w }, ?_, ?_⟩
    · simp [candlestick.Properties.line_width, h]
    · exact ⟨"with candlesticks lt 1 ", "notitle", rfl⟩
  · intro h
    have h' : ¬ 0 < w := not_lt.mpr h
    simp [candlestick.Properties.line_width, h']

/-- Claim C2, witness at `w = 2` (valid) and `w = -1` (rejected). -/
theorem C2_line_width_witness :
    (∃ q, candlestick.Properties.line_width 2 candlestick.Properties.default
        = some q ∧ strContains q.script ("lw " ++ fmtF64 2 ++ " "))
    ∧ candlestick.Properties.line_width (-1) candlestick.Properties.default = none :=
  ⟨(C2_line_width 2).1 (by decide), (C2_line_width (-1)).2 (by decide)⟩

/-- Claim C3: the filled-curve plot operation applies the configuration
callback to the default properties before resolving scale factors, and the
factors used for zipping are those of the axis pair set by the callback
(`BottomXLeftY` when none was set); in particular a configuration that set
`TopXRightY` makes the `TopXRightY` factors the ones used. -/
theorem C3_configure_before_resolve (fig : Figure) (fc : filledcurve.FilledCurve)
    (configure : filledcurve.Properties → filledcurve.Properties) :
    (filledcurve.plot fig fc configure).plots = fig.plots ++
      [⟨izip3
          (fc.x.map (· * (scale_factor fig.axes
            ((configure filledcurve.Properties.default).axes.getD Axes.bottomXLeftY)).1))
          (fc.y1.map (· * (scale_factor fig.axes
            ((configure filledcurve.Properties.default).axes.getD Axes.bottomXLeftY)).2))
          (fc.y2.map (· * (scale_factor fig.axes
            ((configure filledcurve.Properties.default).axes.getD Axes.bottomXLeftY)).2)),
        (configure filledcurve.Properties.default).script⟩]
    ∧ ((configure filledcurve.Properties.default).axes = some Axes.topXRightY →
        (filledcurve.plot fig fc configure).plots = fig.plots ++
          [⟨izip3
              (fc.x.map (· * (fig.axes Axes.topXRightY).1))
              (fc.y1.map (· * (fig.axes Axes.topXRightY).2))
              (fc.y2.map (· * (fig.axes Axes.topXRightY).2)),
            (configure filledcurve.Properties.default).script⟩]) := by
  have hmain : (filledcurve.plot fig fc configure).plots = fig.plots ++
      [⟨izip3
          (fc.x.map (· * (scale_factor fig.axes
            ((configure filledcurve.Properties.default).axes.getD Axes.bottomXLeftY)).1))
          (fc.y1.map (· * (scale_factor fig.axes
            ((configure filledcurve.Properties.default).axes.getD Axes.bottomXLeftY)).2))
          (fc.y2.map (· * (scale_factor fig.axes
            ((configure filledcurve.Properties.default).axes.getD Axes.bottomXLeftY)).2)),
        (configure filledcurve.Properties.default).script⟩] := by
    show (fig.plots ++ [⟨Matrix.new (izip3 fc.x fc.y1 fc.y2) _, _⟩]) = _
    rw [Matrix.new_izip3]
  refine ⟨hmain, fun h => ?_⟩
  rw [hmain, h]
  rfl

/-- Claim C3, witness: a figure whose `TopXRightY` factors are `(2, 3)` and
whose other factor pairs are `(1, 1)`; configuring `axes(TopXRightY)` makes
the row `(1, 10, 100)` scale to `(2, 30, 300)`. -/
theorem C3_configure_before_resolve_witness :
    (filledcurve.plot
        ⟨fun a => match a with | Axes.topXRightY => (2, 3) | _ => (1, 1), []⟩
        ⟨[1], [10], [100]⟩
        (filledcurve.Properties.setAxes Axes.topXRightY)).plots
      = [⟨[[2, 30, 300]],
          "axes x2y2 with filledcurves fillstyle noborder notitle"⟩] := by
  have h := (C3_configure_before_resolve
      ⟨fun a => match a with | Axes.topXRightY => (2, 3) | _ => (1, 1), []⟩
      ⟨[1], [10], [100]⟩
      (filledcurve.Properties.setAxes Axes.topXRightY)).2 rfl
  rw [h, List.nil_append]
  refine congrArg₂ (fun d f => [PlotElem.mk d f]) ?_ rfl
  norm_num [izip3_cons, izip3_nil1]

/-- Claim C4: the candlestick plot operation zips the five coordinate
sequences row-wise in the column order
`(x, box_min, whisker_min, whisker_high, box_high)` (permuted relative to
the `Candlesticks` field order), applies the x factor to the x column and
the y factor to the four other columns, and the resulting table has exactly
`min` of the five lengths rows (silent truncation, never an error). -/
theorem C4_candlestick_zip (fig : Figure) (cs : candlestick.Candlesticks)
    (configure : candlestick.Properties → candlestick.Properties) :
    ∃ el : PlotElem,
      (candlestick.plot fig cs configure).plots = fig.plots ++ [el]
      ∧ el.fragment = (configure candlestick.Properties.default).script
      ∧ el.data = izip5
          (cs.x.map (· * (scale_factor fig.axes Axes.bottomXLeftY).1))
          (cs.box_min.map (· * (scale_factor fig.axes Axes.bottomXLeftY).2))
          (cs.whisker_min.map (· * (scale_factor fig.axes Axes.bottomXLeftY).2))
          (cs.whisker_high.map (· * (scale_factor fig.axes Axes.bottomXLeftY).2))
          (cs.box_high.map (· * (scale_factor fig.axes Axes.bottomXLeftY).2))
      ∧ el.data.length = min cs.x.length (min cs.whisker_min.length
          (min cs.box_min.length (min cs.box_high.length cs.whisker_high.length))) := by
  refine ⟨⟨Matrix.new
      (izip5 cs.x cs.box_min cs.whisker_min cs.whisker_high cs.box_high)
      [(scale_factor fig.axes Axes.bottomXLeftY).1,
       (scale_factor fig.axes Axes.bottomXLeftY).2,
       (scale_factor fig.axes Axes.bottomXLeftY).2,
       (scale_factor fig.axes Axes.bottomXLeftY).2,
       (scale_factor fig.axes Axes.bottomXLeftY).2],
      (configure candlestick.Properties.default).script⟩, rfl, rfl, ?_, ?_⟩
  · exact Matrix.new_izip5 _ _ _ _ _ _ _ _ _ _
  · show (Matrix.new (izip5 cs.x cs.box_min cs.whisker_min cs.whisker_high cs.box_high)
        _).length = _
    rw [Matrix.new, List.length_map, izip5_length]
    omega

/-- Claim C5: a `KeyProperties` whose hidden flag is set serializes to
exactly `"set key off\n"`, regardless of every other field. -/
theorem C5_hidden_script (k : key.KeyProperties) (h : k.hidden = true) :
    k.script = "set key off\n" := by
  simp [key.KeyProperties.script, h]

/-- Claim C5, witness: a key with every other field set to a non-default
value, then hidden, still serializes to `"set key off\n"`. -/
theorem C5_hidden_script_witness :
    (key.KeyProperties.default |>.setBoxed true
      |>.setJustification key.Justification.left
      |>.setOrder key.Order.sampleText
      |>.setPosition (key.Position.outside key.Vertical.bottom key.Horizontal.center)
      |>.setStacked key.Stacked.horizontally
      |>.setTitle "t" |>.hide).script = "set key off\n" :=
  C5_hidden_script _ rfl

/-- Claim C6: the candlestick fragment is, in fixed order, the style
keyword, the `lt` directive, the `lw` directive only if a line width was
set, the `lc rgb` directive only if a color was set, and `title '<label>'`
or `notitle`; an unset optional field contributes no text at all. -/
theorem C6_candlestick_fragment (p : candlestick.Properties) :
    p.script = "with candlesticks " ++ ("lt " ++ p.line_type.display ++ " ")
      ++ (match p.linewidth with
          | some w => "lw " ++ fmtF64 w ++ " "
          | none => "")
      ++ (match p.color with
          | some c => "lc rgb '" ++ c.display ++ "' "
          | none => "")
      ++ (match p.label with
          | some l => "title '" ++ l ++ "'"
          | none => "notitle") := by
  rcases p with ⟨c, lb, lt, lw⟩
  rcases lw with _ | w <;> rcases c with _ | c <;> rcases lb with _ | l <;>
    simp only [candlestick.Properties.script, String.append_assoc,
      String.append_empty, String.empty_append]

/-- Claim C7: the filled-curve fragment is, in fixed order, the `axes`
prefix only if an axis pair was set, `with filledcurves fillstyle`, then
`solid <opacity>` only if opacity was set, the fixed `noborder` directive
always, the `lc rgb` directive only if a color was set, and
`title '<label>'` or `notitle`. -/
theorem C7_filledcurve_fragment (p : filledcurve.Properties) :
    p.script = (match p.axes with
          | some a => "axes " ++ a.display ++ " "
          | none => "")
      ++ "with filledcurves " ++ "fillstyle "
      ++ (match p.opacity with
          | some o => "solid " ++ fmtF64 o ++ " "
          | none => "")
      ++ "noborder "
      ++ (match p.color with
          | some c => "lc rgb '" ++ c.display ++ "' "
          | none => "")
      ++ (match p.label with
          | some l => "title '" ++ l ++ "'"
          | none => "notitle") := by
  rcases p with ⟨a, c, lb, o⟩
  rcases a with _ | a <;> rcases o with _ | o <;> rcases c with _ | c <;>
    rcases lb with _ | l <;>
    simp only [filledcurve.Properties.script, String.append_assoc,
      String.append_empty, String.empty_append]

/-- Claim C8: a `KeyProperties` whose hidden flag is not set serializes to
`set key on ` followed by exactly the set fields in the fixed order
placement, stacking, justification, ordering, quoted title, box flag,
terminated by a newline; unset fields contribute no text. -/
theorem C8_shown_script (k : key.KeyProperties) (h : k.hidden = false) :
    k.script = "set key on "
      ++ (match k.position with
          | none => ""
          | some (key.Position.inside v hp) =>
              "inside " ++ v.display ++ " " ++ hp.display ++ " "
          | some (key.Position.outside v hp) =>
              "outside " ++ v.display ++ " " ++ hp.display ++ " ")
      ++ (match k.stacked with
          | some st => st.display ++ " "
          | none => "")
      ++ (match k.justification with
          | some j => j.display ++ " "
          | none => "")
      ++ (match k.order with
          | some o => o.display ++ " "
          | none => "")
      ++ (match k.title with
          | some t => "title '" ++ t ++ "' "
          | none => "")
      ++ (if k.boxed then "box " else "")
      ++ "\n" := by
  rcases k with ⟨b, hd, j, o, pos, st, t⟩
  subst h
  rcases pos with _ | pv
  case none =>
    rcases st with _ | st <;> rcases j with _ | j <;> rcases o with _ | o <;>
      rcases t with _ | t <;> cases b <;>
      simp only [key.KeyProperties.script, String.append_assoc,
        String.append_empty, String.empty_append, Bool.false_eq_true, if_false,
        if_true, ite_false, ite_true]
  case some =>
    rcases pv with ⟨v, hp⟩ | ⟨v, hp⟩ <;>
      rcases st with _ | st <;> rcases j with _ | j <;> rcases o with _ | o <;>
      rcases t with _ | t <;> cases b <;>
      simp only [key.KeyProperties.script, String.append_assoc,
        String.append_empty, String.empty_append, Bool.false_eq_true, if_false,
        if_true, ite_false, ite_true]

/-- Claim C8, witness: a default `KeyProperties` (no setters called)
serializes to exactly `"set key on \n"`. -/
theorem C8_shown_script_witness :
    key.KeyProperties.default.script = "set key on \n" := by
  rw [C8_shown_script key.KeyProperties.default rfl]
  decide

/-- Claim C9, counterexample: the claim quantifies over any sequence of
setter calls, but when the sequence itself left the key hidden (here the
single call `hide()`), applying `hide()` then `show()` yields a value that
serializes differently from the value before (`"set key on \n"` versus
`"set key off\n"`). -/
theorem C9_counterexample :
    ((key.KeyProperties.default.hide).hide.show).script
      ≠ (key.KeyProperties.default.hide).script := by
  decide

/-- Claim C9, amended: `hide()` and `show()` modify only the hidden flag
and leave every other field unchanged; consequently, whenever the key was
shown (hidden flag not set), applying `hide()` followed by `show()` yields
a value that serializes identically to the value before. -/
theorem C9_hide_show (k : key.KeyProperties) :
    k.hide = { k with hidden := true }
    ∧ k.show = { k with hidden := false }
    ∧ (k.hidden = false → (k.hide.show).script = k.script) := by
  refine ⟨rfl, rfl, fun h => ?_⟩
  rcases k with ⟨b, hd, j, o, pos, st, t⟩
  subst h
  rfl

/-- Claim C9 (amended), witness: on the default key, hide-then-show
round-trips the serialization. -/
theorem C9_hide_show_witness :
    (key.KeyProperties.default.hide.show).script
      = key.KeyProperties.default.script :=
  (C9_hide_show key.KeyProperties.default).2.2 rfl

/-- Claim C10: a label is embedded verbatim between single quotes by plain
concatenation, with no escaping, in both the candlestick and the
filled-curve fragment; in particular a label containing a single-quote
character appears literally inside the title directive, as the two closing
concrete instances show. -/
theorem C10_label_verbatim (l : String) (pc : candlestick.Properties)
    (pf : filledcurve.Properties) :
    (∃ a, (pc.setLabel l).script = a ++ "title '" ++ l ++ "'")
    ∧ (∃ a, (pf.setLabel l).script = a ++ "title '" ++ l ++ "'")
    ∧ (candlestick.Properties.setLabel "it's" candlestick.Properties.default).script
        = "with candlesticks lt 1 title 'it's'"
    ∧ (filledcurve.Properties.setLabel "it's" filledcurve.Properties.default).script
        = "with filledcurves fillstyle noborder title 'it's'" :=
  ⟨⟨_, rfl⟩, ⟨_, rfl⟩, by decide, by decide⟩

end Ploteria
